import Mathlib

/-!
Shallow embedding of `src/web/src/hooks/useDuckDB.ts` (the DuckDB-wasm hook
of the rastraverba web app): its lifecycle state, initialization routine
`initDuckDB`, per-query executor `executeQuery`, and the record the hook
returns to its consumers.  External engine operations (bundle selection,
worker construction, `db.instantiate`, `db.registerFileURL`, `connect`,
`conn.query`, `row.toJSON`, `conn.close`) are modelled as environment-supplied
fallible results; every call the hook makes to the engine is recorded in an
event trace so that resource accounting (connections acquired/released,
workers created/terminated) can be stated and proved.
-/

namespace RastraVerba

/-- A JavaScript `Error` object, identified by its message string. -/
structure JSError where
  message : String
deriving DecidableEq

/-- A JavaScript thrown value: either an `Error` instance or some other value
(kept by its `String(...)` rendering), matching the hook's
`error instanceof Error` test. -/
inductive JSValue where
  | error (e : JSError)
  | other (str : String)
deriving DecidableEq

/-- The hook's wrapping of a caught value,
`error instanceof Error ? error : new Error(String(error))`. -/
def toError : JSValue → JSError
  | .error e => e
  | .other s => JSError.mk s

/-- A `duckdb.DuckDBBundle`: the module variant chosen for the browser. -/
structure Bundle where
  mainModule : String
  mainWorker : String
  pthreadWorker : Option String
deriving DecidableEq

/-- A web `Worker`, identified by the object URL it was constructed from. -/
structure Worker where
  url : String
deriving DecidableEq

/-- An `AsyncDuckDB` handle, `new duckdb.AsyncDuckDB(logger, worker)`;
the logger is a plain `ConsoleLogger` and carries no state. -/
structure AsyncDuckDB where
  worker : Worker
deriving DecidableEq

/-- `duckdb.DuckDBDataProtocol` as used by `registerFileURL`. -/
inductive DuckDBDataProtocol where
  | BUFFER
  | NODE_FS
  | BROWSER_FILEREADER
  | BROWSER_FSACCESS
  | HTTP
deriving DecidableEq

/-- The hook's `DuckDBState`:
`{ db: AsyncDuckDB | null; loading: boolean; error: Error | null }`. -/
structure DuckDBState where
  db : Option AsyncDuckDB
  loading : Bool
  error : Option JSError
deriving DecidableEq

/-- The `useState` initial value `{ db: null, loading: true, error: null }`. -/
def initialState : DuckDBState :=
  { db := none, loading := true, error := none }

/-- `PARQUET_URL = process.env.NEXT_PUBLIC_DATA_URL || "/data/emendas_rastreadas.parquet"`;
the JS `||` takes the default when the variable is absent or the empty
string (both falsy). -/
def parquetURL (envVar : Option String) : String :=
  match envVar with
  | some s => if s = "" then "/data/emendas_rastreadas.parquet" else s
  | none => "/data/emendas_rastreadas.parquet"

/-- The synthesized in-memory worker bootstrap,
`importScripts("${bundle.mainWorker!}");`, wrapped in a Blob object URL. -/
def workerScript (b : Bundle) : String :=
  "importScripts(\"" ++ b.mainWorker ++ "\");"

/-- Outcomes of the asynchronous engine operations `initDuckDB` performs, one
field per suspension point; an `Except.error` models that call throwing. -/
structure InitEnv where
  jsDelivrBundles : List Bundle
  selectBundle : List Bundle → Except JSValue Bundle
  createWorker : String → Except JSValue Worker
  dbInstantiate : String → Option String → Except JSValue Unit
  dbRegisterFileURL : String → String → DuckDBDataProtocol → Bool → Except JSValue Unit

/-- One engine-facing or state-facing action taken during initialization. -/
inductive InitEvent where
  | getBundles
  | selectBundle (ok : Bool)
  | createWorker (script : String) (ok : Bool)
  | dbInstantiate (mainModule : String) (pthread : Option String) (ok : Bool)
  | registerFileURL (name url : String) (proto : DuckDBDataProtocol) (forceFullDownload : Bool) (ok : Bool)
  | terminateWorker (w : Worker)
  | consoleError (v : JSValue)
  | commit (st : DuckDBState)
deriving DecidableEq

/-- The try-block body of `initDuckDB` (lines 26-51 of the hook): bundle
catalog, bundle selection, worker synthesis, `AsyncDuckDB` construction,
`instantiate`, `registerFileURL`.  Returns the completed handle or the
first thrown value, together with the trace of calls made. -/
def runInitSteps (env : InitEnv) (url : String) :
    Except JSValue AsyncDuckDB × List InitEvent :=
  match env.selectBundle env.jsDelivrBundles with
  | .error e => (.error e, [.getBundles, .selectBundle false])
  | .ok bundle =>
    match env.createWorker (workerScript bundle) with
    | .error e =>
        (.error e,
         [.getBundles, .selectBundle true, .createWorker (workerScript bundle) false])
    | .ok w =>
      match env.dbInstantiate bundle.mainModule bundle.pthreadWorker with
      | .error e =>
          (.error e,
           [.getBundles, .selectBundle true, .createWorker (workerScript bundle) true,
            .dbInstantiate bundle.mainModule bundle.pthreadWorker false])
      | .ok _ =>
        match env.dbRegisterFileURL "emendas.parquet" url .HTTP false with
        | .error e =>
            (.error e,
             [.getBundles, .selectBundle true, .createWorker (workerScript bundle) true,
              .dbInstantiate bundle.mainModule bundle.pthreadWorker true,
              .registerFileURL "emendas.parquet" url .HTTP false false])
        | .ok _ =>
            (.ok { worker := w },
             [.getBundles, .selectBundle true, .createWorker (workerScript bundle) true,
              .dbInstantiate bundle.mainModule bundle.pthreadWorker true,
              .registerFileURL "emendas.parquet" url .HTTP false true])

/-- The ready state committed on initialization success:
`setState({ db, loading: false, error: null })`. -/
def readyState (db : AsyncDuckDB) : DuckDBState :=
  { db := some db, loading := false, error := none }

/-- The error state committed on initialization failure:
`setState({ db: null, loading: false, error: wrapped })`. -/
def errorState (v : JSValue) : DuckDBState :=
  { db := none, loading := false, error := some (toError v) }

/-- The whole of `initDuckDB` including its catch-block: runs the steps,
logs failures with `console.error`, and commits the outcome into state only
when the `isMounted` liveness flag still holds at commit time.  The state
component is the hook state after the call settles. -/
def initDuckDB (env : InitEnv) (dataUrlVar : Option String) (isMounted : Bool)
    (st : DuckDBState) : DuckDBState × List InitEvent :=
  match runInitSteps env (parquetURL dataUrlVar) with
  | (.ok db, tr) =>
      if isMounted then (readyState db, tr ++ [.commit (readyState db)])
      else (st, tr)
  | (.error v, tr) =>
      if isMounted then
        (errorState v, tr ++ [.consoleError v, .commit (errorState v)])
      else (st, tr ++ [.consoleError v])

/-- The cleanup function returned by the effect: `() => { isMounted = false; }`.
It only clears the liveness flag; it performs no engine call. -/
def cleanup (_isMounted : Bool) : Bool :=
  false

/-- One Arrow row of a query result, prior to `toJSON` conversion. -/
structure ArrowRow where
  raw : Nat
deriving DecidableEq

/-- The Arrow table returned by `conn.query(sql)`; `toArray()` is its row list. -/
structure ArrowTable where
  rows : List ArrowRow
deriving DecidableEq

/-- A scalar cell value of a converted row record. -/
inductive Scalar where
  | str (s : String)
  | num (n : Int)
  | boolean (b : Bool)
  | null
deriving DecidableEq

/-- A row record, `Record<string, unknown>`: column name to scalar value. -/
def Row : Type := List (String × Scalar)

instance : DecidableEq Row := by
  unfold Row
  infer_instance

/-- Outcomes of the engine operations a single `executeQuery` call performs. -/
structure QueryEnv where
  connect : Except JSValue Unit
  connQuery : String → Except JSValue ArrowTable
  toJSON : ArrowRow → Except JSValue Row
  close : Except JSValue Unit

/-- One engine-facing action taken during a query call. -/
inductive QEvent where
  | connect (ok : Bool)
  | connQuery (sql : String) (ok : Bool)
  | convert (ok : Bool)
  | close (ok : Bool)
deriving DecidableEq

/-- Boolean success test for an `Except` outcome. -/
def exceptOk {ε α : Type} : Except ε α → Bool
  | .ok _ => true
  | .error _ => false

/-- `result.toArray().map((row) => row.toJSON())`: converts each Arrow row in
order, aborting at the first row whose conversion throws. -/
def mapToJSON (f : ArrowRow → Except JSValue Row) :
    List ArrowRow → Except JSValue (List Row)
  | [] => .ok []
  | r :: rs =>
    match f r with
    | .error e => .error e
    | .ok row =>
      match mapToJSON f rs with
      | .error e => .error e
      | .ok rows => .ok (row :: rows)

/-- JavaScript `try/finally` value semantics: the `finally` clause
(`await conn.close()`) runs after the body; if it throws, its exception
supersedes the body's result or exception. -/
def finallyResult (body : Except JSValue (List Row))
    (closeOutcome : Except JSValue Unit) : Except JSValue (List Row) :=
  match closeOutcome with
  | .ok _ => body
  | .error e => .error e

/-- What one `executeQuery(sql)` call produces: its promise outcome, the hook
state after the call settles, and the trace of engine calls it made. -/
structure QueryCall where
  result : Except JSValue (List Row)
  state : DuckDBState
  events : List QEvent

/-- `executeQuery` (lines 75-90 of the hook): guard on a null `state.db`,
then `connect`, `conn.query(sql)`, row conversion, with `conn.close()` in a
`finally` clause.  The function never calls `setState`, so the returned
state is whatever was passed in. -/
def executeQuery (st : DuckDBState) (env : QueryEnv) (sql : String) : QueryCall :=
  match st.db with
  | none =>
      { result := .error (.error (JSError.mk "Database not initialized")),
        state := st, events := [] }
  | some _ =>
    match env.connect with
    | .error e => { result := .error e, state := st, events := [.connect false] }
    | .ok _ =>
      match env.connQuery sql with
      | .error e =>
          { result := finallyResult (.error e) env.close, state := st,
            events := [.connect true, .connQuery sql false, .close (exceptOk env.close)] }
      | .ok table =>
        match mapToJSON env.toJSON table.rows with
        | .error e =>
            { result := finallyResult (.error e) env.close, state := st,
              events := [.connect true, .connQuery sql true, .convert false,
                         .close (exceptOk env.close)] }
        | .ok rows =>
            { result := finallyResult (.ok rows) env.close, state := st,
              events := [.connect true, .connQuery sql true, .convert true,
                         .close (exceptOk env.close)] }

/-- The record the hook returns on line 92-98:
`{ db, loading, error, isReady }` (plus the `executeQuery` callback, which
closes over `state.db` and is modelled by `executeQuery` above). -/
structure HookReturn where
  db : Option AsyncDuckDB
  loading : Bool
  error : Option JSError
  isReady : Bool
deriving DecidableEq

/-- The hook's published view of its internal state. -/
def publish (st : DuckDBState) : HookReturn :=
  { db := st.db, loading := st.loading, error := st.error,
    isReady := st.db.isSome && !st.loading }

/-- The `isReady` signal: `state.db !== null && !state.loading`. -/
def isReady (st : DuckDBState) : Bool :=
  st.db.isSome && !st.loading

/-- An observable action of one hook session: either the one-shot
initialization settling (with its environment), or an `executeQuery` call. -/
inductive HookAction where
  | initSettles (env : InitEnv) (dataUrlVar : Option String)
  | runQuery (env : QueryEnv) (sql : String)

/-- Whether an action is the initialization settling. -/
def isInitAction : HookAction → Bool
  | .initSettles _ _ => true
  | .runQuery _ _ => false

/-- State transition of one action in a mounted (no-teardown) session. -/
def hookStep (st : DuckDBState) : HookAction → DuckDBState
  | .initSettles env dataUrlVar => (initDuckDB env dataUrlVar true st).1
  | .runQuery env sql => (executeQuery st env sql).state

/-- All states a session publishes, starting from `st`, one per point in
time: before any action and after each action. -/
def runActions : DuckDBState → List HookAction → List DuckDBState
  | st, [] => [st]
  | st, a :: acts => st :: runActions (hookStep st a) acts

/-- Number of successful connection acquisitions in a query trace. -/
def countAcquired (tr : List QEvent) : Nat :=
  tr.countP (fun e => match e with | .connect true => true | _ => false)

/-- Number of `conn.close()` calls in a query trace. -/
def countReleased (tr : List QEvent) : Nat :=
  tr.countP (fun e => match e with | .close _ => true | _ => false)

/-- Number of `registerFileURL` calls in an initialization trace. -/
def countRegister (tr : List InitEvent) : Nat :=
  tr.countP (fun e => match e with | .registerFileURL _ _ _ _ _ => true | _ => false)

/-- Number of workers constructed in an initialization trace. -/
def countWorkerAlloc (tr : List InitEvent) : Nat :=
  tr.countP (fun e => match e with | .createWorker _ true => true | _ => false)

/-- Number of worker terminations in an initialization trace. -/
def countWorkerTerminate (tr : List InitEvent) : Nat :=
  tr.countP (fun e => match e with | .terminateWorker _ => true | _ => false)

/-- The tri-state shape invariant: loading, ready, or error, exclusively. -/
def TriState (st : DuckDBState) : Prop :=
  (st.db = none ∧ st.loading = true ∧ st.error = none) ∨
  (st.db ≠ none ∧ st.loading = false ∧ st.error = none) ∨
  (st.db = none ∧ st.loading = false ∧ st.error ≠ none)

/-- A sample converted row record, used for concrete instantiations. -/
def sampleRow : Row := [("c", Scalar.num 3)]

/-- A query environment in which every engine operation succeeds. -/
def okQueryEnv : QueryEnv :=
  { connect := .ok (), connQuery := fun _ => .ok { rows := [{ raw := 0 }] },
    toJSON := fun _ => .ok sampleRow, close := .ok () }

/-- Shared lemma: `executeQuery` contains no `setState` call, so the hook
state after the call is the state that was passed in, on every path. -/
theorem executeQuery_state (st : DuckDBState) (env : QueryEnv) (sql : String) :
    (executeQuery st env sql).state = st := by
  unfold executeQuery
  split
  · rfl
  · split
    · rfl
    · split
      · rfl
      · split <;> rfl

/-- Shared lemma: a `runQuery` step of the session leaves the state fixed. -/
theorem hookStep_runQuery (st : DuckDBState) (env : QueryEnv) (sql : String) :
    hookStep st (.runQuery env sql) = st :=
  executeQuery_state st env sql

/-- C1: in every `executeQuery` call, under any outcome of connect, submit,
conversion and close (failure injected at any of them), the number of
successful connection acquisitions in the call's trace equals the number of
`conn.close()` calls: a connection, once acquired, is always released via the
`finally` clause, on the normal path and on every error path. -/
theorem connection_acquire_release_balanced (st : DuckDBState) (env : QueryEnv)
    (sql : String) :
    countAcquired (executeQuery st env sql).events
      = countReleased (executeQuery st env sql).events := by
  unfold executeQuery
  split
  · rfl
  · split
    · rfl
    · split
      · rfl
      · split <;> rfl

/-- C2: calling `executeQuery` while the database handle is null fails
synchronously with the hook's own `Error("Database not initialized")`, with
an empty engine trace — no connection is attempted and nothing is queued, so
the failure is immediate and produced before (hence distinctly from) any
engine-side query machinery. -/
theorem query_not_initialized (st : DuckDBState) (env : QueryEnv) (sql : String)
    (h : st.db = none) :
    executeQuery st env sql =
      { result := .error (.error (JSError.mk "Database not initialized")),
        state := st, events := [] } := by
  unfold executeQuery
  rw [h]

/-- Witness for C2 at the hook's initial state and a concrete environment. -/
theorem query_not_initialized_witness :
    executeQuery initialState okQueryEnv "SELECT 1" =
      { result := .error (.error (JSError.mk "Database not initialized")),
        state := initialState, events := [] } :=
  query_not_initialized initialState okQueryEnv "SELECT 1" rfl

/-- A fixed bundle used for concrete instantiations. -/
def bundleA : Bundle :=
  { mainModule := "duckdb-eh.wasm", mainWorker := "duckdb-browser-eh.worker.js",
    pthreadWorker := none }

/-- An initialization environment in which every engine operation succeeds. -/
def okInitEnv : InitEnv :=
  { jsDelivrBundles := [bundleA],
    selectBundle := fun _ => .ok bundleA,
    createWorker := fun u => .ok { url := u },
    dbInstantiate := fun _ _ => .ok (),
    dbRegisterFileURL := fun _ _ _ _ => .ok () }

/-- An initialization environment whose `instantiate` call throws a
non-`Error` value, exercising the `String(error)` wrapping path. -/
def failingInitEnv : InitEnv :=
  { jsDelivrBundles := [bundleA],
    selectBundle := fun _ => .ok bundleA,
    createWorker := fun u => .ok { url := u },
    dbInstantiate := fun _ _ => .error (.other "wasm trap"),
    dbRegisterFileURL := fun _ _ _ _ => .ok () }

/-- Branch equation: bundle selection throws. -/
theorem runInitSteps_eq_selErr (env : InitEnv) (url : String) (e : JSValue)
    (hsel : env.selectBundle env.jsDelivrBundles = .error e) :
    runInitSteps env url = (.error e, [.getBundles, .selectBundle false]) := by
  unfold runInitSteps
  simp only [hsel]

/-- Branch equation: worker construction throws. -/
theorem runInitSteps_eq_workerErr (env : InitEnv) (url : String) (bundle : Bundle)
    (e : JSValue) (hsel : env.selectBundle env.jsDelivrBundles = .ok bundle)
    (hw : env.createWorker (workerScript bundle) = .error e) :
    runInitSteps env url =
      (.error e,
       [.getBundles, .selectBundle true, .createWorker (workerScript bundle) false]) := by
  unfold runInitSteps
  simp only [hsel, hw]

/-- Branch equation: `db.instantiate` throws. -/
theorem runInitSteps_eq_instErr (env : InitEnv) (url : String) (bundle : Bundle)
    (w : Worker) (e : JSValue)
    (hsel : env.selectBundle env.jsDelivrBundles = .ok bundle)
    (hw : env.createWorker (workerScript bundle) = .ok w)
    (hinst : env.dbInstantiate bundle.mainModule bundle.pthreadWorker = .error e) :
    runInitSteps env url =
      (.error e,
       [.getBundles, .selectBundle true, .createWorker (workerScript bundle) true,
        .dbInstantiate bundle.mainModule bundle.pthreadWorker false]) := by
  unfold runInitSteps
  simp only [hsel, hw, hinst]

/-- Branch equation: `db.registerFileURL` throws. -/
theorem runInitSteps_eq_regErr (env : InitEnv) (url : String) (bundle : Bundle)
    (w : Worker) (u : Unit) (e : JSValue)
    (hsel : env.selectBundle env.jsDelivrBundles = .ok bundle)
    (hw : env.createWorker (workerScript bundle) = .ok w)
    (hinst : env.dbInstantiate bundle.mainModule bundle.pthreadWorker = .ok u)
    (hreg : env.dbRegisterFileURL "emendas.parquet" url .HTTP false = .error e) :
    runInitSteps env url =
      (.error e,
       [.getBundles, .selectBundle true, .createWorker (workerScript bundle) true,
        .dbInstantiate bundle.mainModule bundle.pthreadWorker true,
        .registerFileURL "emendas.parquet" url .HTTP false false]) := by
  unfold runInitSteps
  simp only [hsel, hw, hinst, hreg]

/-- Branch equation: every initialization step succeeds. -/
theorem runInitSteps_eq_ok (env : InitEnv) (url : String) (bundle : Bundle)
    (w : Worker) (u u2 : Unit)
    (hsel : env.selectBundle env.jsDelivrBundles = .ok bundle)
    (hw : env.createWorker (workerScript bundle) = .ok w)
    (hinst : env.dbInstantiate bundle.mainModule bundle.pthreadWorker = .ok u)
    (hreg : env.dbRegisterFileURL "emendas.parquet" url .HTTP false = .ok u2) :
    runInitSteps env url =
      (.ok { worker := w },
       [.getBundles, .selectBundle true, .createWorker (workerScript bundle) true,
        .dbInstantiate bundle.mainModule bundle.pthreadWorker true,
        .registerFileURL "emendas.parquet" url .HTTP false true]) := by
  unfold runInitSteps
  simp only [hsel, hw, hinst, hreg]

/-- Shared lemma: the initializer body never emits a state-commit event;
commits happen only in `initDuckDB` after the liveness check. -/
theorem runInitSteps_no_commit (env : InitEnv) (url : String) (s : DuckDBState) :
    InitEvent.commit s ∉ (runInitSteps env url).2 := by
  cases hsel : env.selectBundle env.jsDelivrBundles with
  | error e => rw [runInitSteps_eq_selErr env url e hsel]; simp
  | ok bundle =>
    cases hw : env.createWorker (workerScript bundle) with
    | error e => rw [runInitSteps_eq_workerErr env url bundle e hsel hw]; simp
    | ok w =>
      cases hinst : env.dbInstantiate bundle.mainModule bundle.pthreadWorker with
      | error e => rw [runInitSteps_eq_instErr env url bundle w e hsel hw hinst]; simp
      | ok u =>
        cases hreg : env.dbRegisterFileURL "emendas.parquet" url .HTTP false with
        | error e =>
          rw [runInitSteps_eq_regErr env url bundle w u e hsel hw hinst hreg]; simp
        | ok u2 =>
          rw [runInitSteps_eq_ok env url bundle w u u2 hsel hw hinst hreg]; simp

/-- Shared lemma: the initializer body never terminates a worker. -/
theorem runInitSteps_no_terminate (env : InitEnv) (url : String) :
    countWorkerTerminate (runInitSteps env url).2 = 0 := by
  cases hsel : env.selectBundle env.jsDelivrBundles with
  | error e => rw [runInitSteps_eq_selErr env url e hsel]; rfl
  | ok bundle =>
    cases hw : env.createWorker (workerScript bundle) with
    | error e => rw [runInitSteps_eq_workerErr env url bundle e hsel hw]; rfl
    | ok w =>
      cases hinst : env.dbInstantiate bundle.mainModule bundle.pthreadWorker with
      | error e => rw [runInitSteps_eq_instErr env url bundle w e hsel hw hinst]; rfl
      | ok u =>
        cases hreg : env.dbRegisterFileURL "emendas.parquet" url .HTTP false with
        | error e =>
          rw [runInitSteps_eq_regErr env url bundle w u e hsel hw hinst hreg]; rfl
        | ok u2 =>
          rw [runInitSteps_eq_ok env url bundle w u u2 hsel hw hinst hreg]; rfl

/-- C4: `executeQuery` never mutates the lifecycle state: whether the call
succeeds or throws (at connect, submit, conversion or close), the state
after the call — its db handle, loading flag and error field — is exactly
the state before it, so a query failure causes no ready-to-error transition
and the handle stays available to later calls. -/
theorem executeQuery_frame (st : DuckDBState) (env : QueryEnv) (sql : String) :
    (executeQuery st env sql).state = st ∧
    (executeQuery st env sql).state.db = st.db ∧
    (executeQuery st env sql).state.loading = st.loading ∧
    (executeQuery st env sql).state.error = st.error := by
  refine ⟨executeQuery_state st env sql, ?_, ?_, ?_⟩ <;>
    rw [executeQuery_state st env sql]

/-- C3: whichever initialization step throws (bundle selection, worker
creation, engine instantiation or resource registration, i.e. any run of the
body that ends in an error), the exception is caught inside `initDuckDB` and,
while the instance is still mounted, the state is committed to the error
shape: `db = null`, `loading = false`, and `error` holding the thrown `Error`
itself (or a new `Error` carrying `String(thrown)` for non-`Error` values).
The initializer is a total function into states with `loading = false`, so no
run leaves the state loading forever and no exception escapes it. -/
theorem init_failure_captured (env : InitEnv) (dataUrlVar : Option String)
    (st : DuckDBState) (v : JSValue) (tr : List InitEvent)
    (h : runInitSteps env (parquetURL dataUrlVar) = (.error v, tr)) :
    (initDuckDB env dataUrlVar true st).1 = errorState v ∧
    (initDuckDB env dataUrlVar true st).1.db = none ∧
    (initDuckDB env dataUrlVar true st).1.loading = false ∧
    (initDuckDB env dataUrlVar true st).1.error = some (toError v) := by
  unfold initDuckDB
  rw [h]
  exact ⟨rfl, rfl, rfl, rfl⟩

/-- Witness for C3: a concrete run whose `instantiate` throws the
non-`Error` value `"wasm trap"` settles in the error state wrapping it. -/
theorem init_failure_captured_witness :
    (initDuckDB failingInitEnv none true initialState).1
      = errorState (.other "wasm trap") :=
  (init_failure_captured failingInitEnv none initialState (.other "wasm trap")
    _ rfl).1

/-- C9: once the cleanup has cleared the liveness flag (`isMounted = false`),
a still-in-flight initialization commits nothing into the hook's shared
state: the state after the run is exactly the state before it, on the success
path and on every failure path, and the run's trace contains no commit
event at all. -/
theorem unmounted_commits_nothing (env : InitEnv) (dataUrlVar : Option String)
    (st : DuckDBState) :
    (initDuckDB env dataUrlVar false st).1 = st ∧
    ∀ s, InitEvent.commit s ∉ (initDuckDB env dataUrlVar false st).2 := by
  have hnc := runInitSteps_no_commit env (parquetURL dataUrlVar)
  unfold initDuckDB
  cases hrun : runInitSteps env (parquetURL dataUrlVar) with
  | mk r tr =>
    rw [hrun] at hnc
    cases r with
    | ok db =>
      exact ⟨rfl, fun s => by simpa using hnc s⟩
    | error v =>
      refine ⟨rfl, fun s => ?_⟩
      have hs := hnc s
      simp only [Bool.false_eq_true, if_false, List.mem_append, List.mem_singleton]
      rintro (h | h)
      · exact hs h
      · exact absurd h (by simp)

/-- Witness for C9 at a concrete environment and the initial state. -/
theorem unmounted_commits_nothing_witness :
    (initDuckDB okInitEnv none false initialState).1 = initialState :=
  (unmounted_commits_nothing okInitEnv none initialState).1

/-- Counterexample to C8 as stated: in a concrete two-mount scenario — a
first mount whose cleanup runs before its initialization settles (commit-time
flag `cleanup true = false`), followed by a remount — the combined trace
allocates two workers and terminates none; in particular the first mount's
worker still has zero releases after its teardown, so repeated mounts do
accumulate workers. -/
theorem worker_leak_on_remount_cex :
    countWorkerAlloc (initDuckDB okInitEnv none (cleanup true) initialState).2 = 1 ∧
    countWorkerTerminate (initDuckDB okInitEnv none (cleanup true) initialState).2 = 0 ∧
    countWorkerAlloc ((initDuckDB okInitEnv none (cleanup true) initialState).2
      ++ (initDuckDB okInitEnv none true initialState).2) = 2 ∧
    countWorkerTerminate ((initDuckDB okInitEnv none (cleanup true) initialState).2
      ++ (initDuckDB okInitEnv none true initialState).2) = 0 := by
  decide

/-- C8 amended: the worker allocated during initialization is never released
by the hook — no run of `initDuckDB`, mounted or not, ever emits a worker
termination, and the unmount cleanup only clears the liveness flag (which
withholds the state commit but does not free the worker) — so repeated
mounts accumulate one worker per initialization run. -/
theorem worker_never_terminated (env : InitEnv) (dataUrlVar : Option String)
    (isMounted : Bool) (st : DuckDBState) :
    countWorkerTerminate (initDuckDB env dataUrlVar isMounted st).2 = 0 := by
  have hterm := runInitSteps_no_terminate env (parquetURL dataUrlVar)
  unfold initDuckDB
  cases hrun : runInitSteps env (parquetURL dataUrlVar) with
  | mk r tr =>
    rw [hrun] at hterm
    unfold countWorkerTerminate at hterm ⊢
    cases r <;> cases isMounted <;>
      simp_all [List.countP_append, List.countP_cons]

/-- C7: the registration contract of the initializer.  Per initialization
run, `registerFileURL` is called at most once, always with the fixed logical
name `"emendas.parquet"`, the configured source URL, HTTP transport and
`forceFullDownload = false`; a run that completes calls it exactly once,
strictly after the successful `instantiate` (engine startup) and as its last
engine call, so the binding exists before the handle is published and is
never touched again; and a run that commits the ready state has performed a
successful registration. -/
theorem registration_contract :
    (∀ env url, countRegister (runInitSteps env url).2 ≤ 1) ∧
    (∀ env url n u p f ok,
        InitEvent.registerFileURL n u p f ok ∈ (runInitSteps env url).2 →
        n = "emendas.parquet" ∧ u = url ∧ p = DuckDBDataProtocol.HTTP ∧ f = false) ∧
    (∀ env url db, (runInitSteps env url).1 = .ok db →
        ∃ bundle,
          (runInitSteps env url).2 =
            [.getBundles, .selectBundle true, .createWorker (workerScript bundle) true,
             .dbInstantiate bundle.mainModule bundle.pthreadWorker true,
             .registerFileURL "emendas.parquet" url .HTTP false true]) ∧
    (∀ env dataUrlVar st db,
        (initDuckDB env dataUrlVar true st).1 = readyState db →
        InitEvent.registerFileURL "emendas.parquet" (parquetURL dataUrlVar)
            .HTTP false true
          ∈ (initDuckDB env dataUrlVar true st).2) := by
  refine ⟨?_, ?_, ?_, ?_⟩
  · intro env url
    cases hsel : env.selectBundle env.jsDelivrBundles with
    | error e =>
      rw [runInitSteps_eq_selErr env url e hsel]
      simp [countRegister, List.countP_cons]
    | ok bundle =>
      cases hw : env.createWorker (workerScript bundle) with
      | error e =>
        rw [runInitSteps_eq_workerErr env url bundle e hsel hw]
        simp [countRegister, List.countP_cons]
      | ok w =>
        cases hinst : env.dbInstantiate bundle.mainModule bundle.pthreadWorker with
        | error e =>
          rw [runInitSteps_eq_instErr env url bundle w e hsel hw hinst]
          simp [countRegister, List.countP_cons]
        | ok u =>
          cases hreg : env.dbRegisterFileURL "emendas.parquet" url .HTTP false with
          | error e =>
            rw [runInitSteps_eq_regErr env url bundle w u e hsel hw hinst hreg]
            simp [countRegister, List.countP_cons]
          | ok u2 =>
            rw [runInitSteps_eq_ok env url bundle w u u2 hsel hw hinst hreg]
            simp [countRegister, List.countP_cons]
  · intro env url n u p f ok hmem
    cases hsel : env.selectBundle env.jsDelivrBundles with
    | error e =>
      rw [runInitSteps_eq_selErr env url e hsel] at hmem
      simp at hmem
    | ok bundle =>
      cases hw : env.createWorker (workerScript bundle) with
      | error e =>
        rw [runInitSteps_eq_workerErr env url bundle e hsel hw] at hmem
        simp at hmem
      | ok w =>
        cases hinst : env.dbInstantiate bundle.mainModule bundle.pthreadWorker with
        | error e =>
          rw [runInitSteps_eq_instErr env url bundle w e hsel hw hinst] at hmem
          simp at hmem
        | ok u =>
          cases hreg : env.dbRegisterFileURL "emendas.parquet" url .HTTP false with
          | error e =>
            rw [runInitSteps_eq_regErr env url bundle w u e hsel hw hinst hreg] at hmem
            simp at hmem
            tauto
          | ok u2 =>
            rw [runInitSteps_eq_ok env url bundle w u u2 hsel hw hinst hreg] at hmem
            simp at hmem
            tauto
  · intro env url db hok
    cases hsel : env.selectBundle env.jsDelivrBundles with
    | error e =>
      rw [runInitSteps_eq_selErr env url e hsel] at hok
      simp at hok
    | ok bundle =>
      cases hw : env.createWorker (workerScript bundle) with
      | error e =>
        rw [runInitSteps_eq_workerErr env url bundle e hsel hw] at hok
        simp at hok
      | ok w =>
        cases hinst : env.dbInstantiate bundle.mainModule bundle.pthreadWorker with
        | error e =>
          rw [runInitSteps_eq_instErr env url bundle w e hsel hw hinst] at hok
          simp at hok
        | ok u =>
          cases hreg : env.dbRegisterFileURL "emendas.parquet" url .HTTP false with
          | error e =>
            rw [runInitSteps_eq_regErr env url bundle w u e hsel hw hinst hreg] at hok
            simp at hok
          | ok u2 =>
            rw [runInitSteps_eq_ok env url bundle w u u2 hsel hw hinst hreg]
            exact ⟨bundle, rfl⟩
  · intro env dataUrlVar st db hready
    cases hsel : env.selectBundle env.jsDelivrBundles with
    | error e =>
      unfold initDuckDB at hready
      rw [runInitSteps_eq_selErr env (parquetURL dataUrlVar) e hsel] at hready
      simp [errorState, readyState] at hready
    | ok bundle =>
      cases hw : env.createWorker (workerScript bundle) with
      | error e =>
        unfold initDuckDB at hready
        rw [runInitSteps_eq_workerErr env (parquetURL dataUrlVar) bundle e hsel hw]
          at hready
        simp [errorState, readyState] at hready
      | ok w =>
        cases hinst : env.dbInstantiate bundle.mainModule bundle.pthreadWorker with
        | error e =>
          unfold initDuckDB at hready
          rw [runInitSteps_eq_instErr env (parquetURL dataUrlVar) bundle w e
            hsel hw hinst] at hready
          simp [errorState, readyState] at hready
        | ok u =>
          cases hreg : env.dbRegisterFileURL "emendas.parquet"
              (parquetURL dataUrlVar) .HTTP false with
          | error e =>
            unfold initDuckDB at hready
            rw [runInitSteps_eq_regErr env (parquetURL dataUrlVar) bundle w u e
              hsel hw hinst hreg] at hready
            simp [errorState, readyState] at hready
          | ok u2 =>
            unfold initDuckDB
            rw [runInitSteps_eq_ok env (parquetURL dataUrlVar) bundle w u u2
              hsel hw hinst hreg]
            simp

/-- Witness for C7: in a concrete successful run, the committed trace
contains the registration of `"emendas.parquet"` at the default URL. -/
theorem registration_contract_witness :
    InitEvent.registerFileURL "emendas.parquet" (parquetURL none)
        .HTTP false true
      ∈ (initDuckDB okInitEnv none true initialState).2 :=
  registration_contract.2.2.2 okInitEnv none initialState
    { worker := { url := workerScript bundleA } } rfl

/-- A concrete two-action session: initialization settles, then one query. -/
def demoActions : List HookAction :=
  [.initSettles okInitEnv none, .runQuery okQueryEnv "SELECT 1"]

/-- Shared lemma: a session segment containing no settle action leaves
every published state equal to the segment's starting state. -/
theorem runActions_const (acts : List HookAction) :
    ∀ st, (∀ a ∈ acts, isInitAction a = false) →
      ∀ s ∈ runActions st acts, s = st := by
  induction acts with
  | nil =>
    intro st _ s hs
    simpa [runActions] using hs
  | cons a as ih =>
    intro st hno s hs
    have hstep : hookStep st a = st := by
      cases a with
      | initSettles env dataUrlVar =>
        have h1 := hno (HookAction.initSettles env dataUrlVar) (by simp)
        simp [isInitAction] at h1
      | runQuery env sql => exact hookStep_runQuery st env sql
    simp only [runActions, List.mem_cons] at hs
    rcases hs with hs | hs
    · exact hs
    · rw [hstep] at hs
      exact ih st (fun a ha => hno a (by simp [ha])) s hs

/-- Shared lemma: after the settle, an init-free session keeps the relation
pairwise because all published states coincide. -/
theorem runActions_pairwise_const (acts : List HookAction) (st : DuckDBState)
    (hno : ∀ a ∈ acts, isInitAction a = false) :
    List.Pairwise (fun a b => isReady a = true → isReady b = true)
      (runActions st acts) := by
  apply List.pairwise_of_forall_mem_list
  intro x hx y hy
  rw [runActions_const acts st hno x hx, runActions_const acts st hno y hy]
  exact id

/-- Shared lemma: from a not-ready state, a session with at most one settle
publishes a pairwise `isReady`-monotone sequence of states. -/
theorem runActions_pairwise (acts : List HookAction) :
    ∀ st, isReady st = false → acts.countP isInitAction ≤ 1 →
      List.Pairwise (fun a b => isReady a = true → isReady b = true)
        (runActions st acts) := by
  induction acts with
  | nil =>
    intro st _ _
    simp [runActions]
  | cons a as ih =>
    intro st hst hwf
    simp only [runActions]
    rw [List.pairwise_cons]
    constructor
    · intro b _ hready
      rw [hst] at hready
      exact absurd hready (by simp)
    · cases ha : isInitAction a with
      | false =>
        have hstep : hookStep st a = st := by
          cases a with
          | initSettles env dataUrlVar => simp [isInitAction] at ha
          | runQuery env sql => exact hookStep_runQuery st env sql
        rw [hstep]
        apply ih st hst
        have : (a :: as).countP isInitAction = as.countP isInitAction := by
          simp [List.countP_cons, ha]
        omega
      | true =>
        have hzero : as.countP isInitAction = 0 := by
          have : (a :: as).countP isInitAction = as.countP isInitAction + 1 := by
            simp [List.countP_cons, ha]
          omega
        apply runActions_pairwise_const
        intro x hx
        have := (List.countP_eq_zero).1 hzero x hx
        simpa using this

/-- C5: in a mounted session in which initialization settles at most once,
`isReady` is `false` at every published point while the initial
`{db: null, loading: true}` segment lasts (any action prefix before the
settle), and the full published state sequence is monotone in `isReady`:
every later state of a ready state is still ready. -/
theorem isReady_monotone (acts : List HookAction)
    (hwf : acts.countP isInitAction ≤ 1) :
    isReady initialState = false ∧
    (∀ pre rest, acts = pre ++ rest → (∀ a ∈ pre, isInitAction a = false) →
      ∀ s ∈ runActions initialState pre, isReady s = false) ∧
    List.Pairwise (fun a b => isReady a = true → isReady b = true)
      (runActions initialState acts) := by
  refine ⟨rfl, ?_, ?_⟩
  · intro pre rest _ hno s hs
    rw [runActions_const pre initialState hno s hs]
    rfl
  · exact runActions_pairwise acts initialState rfl hwf

/-- Witness for C5 on a concrete session with one settle and one query. -/
theorem isReady_monotone_witness :
    List.Pairwise (fun a b => isReady a = true → isReady b = true)
      (runActions initialState demoActions) :=
  (isReady_monotone demoActions (by decide)).2.2

/-- Shared lemma: any settle action commits one of the two legal shapes. -/
theorem hookStep_triState (st : DuckDBState) (a : HookAction)
    (h : TriState st) : TriState (hookStep st a) := by
  cases a with
  | runQuery env sql =>
    rw [hookStep_runQuery st env sql]
    exact h
  | initSettles env dataUrlVar =>
    show TriState (initDuckDB env dataUrlVar true st).1
    unfold initDuckDB
    cases hrun : runInitSteps env (parquetURL dataUrlVar) with
    | mk r tr =>
      cases r with
      | ok db =>
        right; left
        exact ⟨by simp [readyState], rfl, rfl⟩
      | error v =>
        right; right
        exact ⟨rfl, rfl, by simp [errorState]⟩

/-- C10: every state a session can publish has exactly one of the three
shapes loading `{null, true, null}`, ready `{handle, false, null}`, or
error `{null, false, cause}`; consequently a non-null db handle implies
`loading = false` and `error = null`, so `executeQuery`'s guard on the
handle alone agrees with the published `isReady` signal. -/
theorem triState_invariant (acts : List HookAction) (s : DuckDBState)
    (hs : s ∈ runActions initialState acts) :
    TriState s ∧ s.db.isSome = isReady s := by
  have key : ∀ (as : List HookAction) (st : DuckDBState), TriState st →
      ∀ x ∈ runActions st as, TriState x := by
    intro as
    induction as with
    | nil =>
      intro st hst x hx
      simp only [runActions, List.mem_singleton] at hx
      rw [hx]
      exact hst
    | cons a as ih =>
      intro st hst x hx
      simp only [runActions, List.mem_cons] at hx
      rcases hx with hx | hx
      · rw [hx]
        exact hst
      · exact ih (hookStep st a) (hookStep_triState st a hst) x hx
  have hinv : TriState s :=
    key acts initialState (Or.inl ⟨rfl, rfl, rfl⟩) s hs
  refine ⟨hinv, ?_⟩
  rcases hinv with ⟨h1, h2, _⟩ | ⟨h1, h2, _⟩ | ⟨h1, h2, _⟩
  · simp [isReady, h1, h2]
  · rcases Option.ne_none_iff_exists.1 h1 with ⟨db, hdb⟩
    simp [isReady, ← hdb, h2]
  · simp [isReady, h1, h2]

/-- Witness for C10 at the head state of the concrete demo session. -/
theorem triState_invariant_witness :
    TriState initialState ∧ initialState.db.isSome = isReady initialState :=
  triState_invariant demoActions initialState (by simp [runActions])

/-- Two distinct engine handles, ready in otherwise identical states. -/
def dbHandleA : AsyncDuckDB := { worker := { url := "blob:a" } }

/-- A second distinct engine handle. -/
def dbHandleB : AsyncDuckDB := { worker := { url := "blob:b" } }

/-- Counterexample to C6 as stated: the hook's returned record is not
determined by the three signals `loading`, `error`, `isReady` — two states
with identical signals but different engine handles publish different
records, because line 93 also returns the raw `db` handle.  So the hook does
not expose exactly the three read-only signals. -/
theorem publish_exposes_db_cex :
    (publish { db := some dbHandleA, loading := false, error := none }).loading
      = (publish { db := some dbHandleB, loading := false, error := none }).loading ∧
    (publish { db := some dbHandleA, loading := false, error := none }).error
      = (publish { db := some dbHandleB, loading := false, error := none }).error ∧
    (publish { db := some dbHandleA, loading := false, error := none }).isReady
      = (publish { db := some dbHandleB, loading := false, error := none }).isReady ∧
    publish { db := some dbHandleA, loading := false, error := none }
      ≠ publish { db := some dbHandleB, loading := false, error := none } := by
  decide

/-- C6 amended: in every state the hook can publish, the exposed `isReady`
signal equals `(db handle != null) && !loading`, and the record exposes the
read-only signals `loading`, `error` and `isReady` derived from the internal
state — but additionally the raw `db` handle (and the `executeQuery`
callback), so the three signals are not the only published outputs. -/
theorem publish_signals (st : DuckDBState) :
    (publish st).isReady = (st.db.isSome && !st.loading) ∧
    (publish st).isReady = isReady st ∧
    (publish st).loading = st.loading ∧
    (publish st).error = st.error ∧
    (publish st).db = st.db :=
  ⟨rfl, rfl, rfl, rfl, rfl⟩

end RastraVerba
